import Mathlib

/-!
Verification of `FormatTIFFgeneric.py` (dxtbx_ED_formats): a shallow
embedding of the detection predicates, scan inference and detector stubs of
the repository, together with theorems settling the specification claims.

Modelling conventions:
* A candidate file is either `unreadable` (opening it with
  `tifffile.TiffFile` raises `tifffile.TiffFileError`) or a parsed TIFF
  container `Tiff` with its list of pages and series.
* Python exceptions are modelled by `PyErr`; a predicate call is modelled by
  a `POutcome`: the returned value or escaped exception, the diagnostic
  messages printed, and a ledger of container handles opened and closed.
* The process environment is modelled by `Env`, holding the two gating
  variables the source reads (`QD_MERLIN_TIFF`, `UED_BNL_TIFF`).
* Availability of the optional `tifffile` dependency is an explicit boolean
  argument to the base predicate.
* Floating point literals of the source (`0.5`, `0.055`, ...) are modelled
  by rationals; all values involved are exactly representable in binary
  floating point at the magnitudes used, so ℚ is a faithful model.
-/

deriving instance DecidableEq for Except

namespace DxtbxED

/-- A TIFF tag value as consumed by the source: either a plain string (tag
270, ImageDescription) or a string-keyed mapping (tag 33560, Olympus SIS). -/
inductive TagValue where
  | str (s : String)
  | dict (entries : List (String × String))
  deriving DecidableEq

/-- One page of a TIFF container: its pixel-array shape (height, width) and
its tag mapping from numeric tag ids to values. -/
structure TiffPage where
  shape : Nat × Nat
  tags : List (Nat × TagValue)
  deriving DecidableEq

/-- A parsed TIFF container: the ordered pages and series.  Only the length
of `series` is consumed by the source, so series entries carry no data. -/
structure Tiff where
  pages : List TiffPage
  series : List Unit
  deriving DecidableEq

/-- A candidate image file: either one that `tifffile.TiffFile` fails to
parse (raising `TiffFileError`) or a parsed container. -/
inductive ImageFile where
  | unreadable
  | tiff (t : Tiff)
  deriving DecidableEq

/-- The process environment variables read by the source.  `none` means the
variable is unset; the value of a set variable is ignored by the source. -/
structure Env where
  qdMerlinTiff : Option String
  uedBnlTiff : Option String
  deriving DecidableEq

/-- The Python exceptions that can arise in the translated code paths. -/
inductive PyErr where
  | tiffFileError
  | assertionError
  | keyError
  | indexError
  | typeError
  deriving DecidableEq

/-- Observable outcome of one call to a detection predicate: the boolean
returned or the exception that escaped, the diagnostic messages printed, and
how many container handles were opened and closed during the call. -/
structure POutcome where
  val : Except PyErr Bool
  messages : List String
  opened : Nat
  closed : Nat
  deriving DecidableEq

/-- `tifffile.TiffFile(image_file)`: parse failure raises `TiffFileError`. -/
def openTiff (f : ImageFile) : Except PyErr Tiff :=
  match f with
  | .unreadable => .error .tiffFileError
  | .tiff t => .ok t

/-- `page.tags[id]` as a total lookup: `none` models the `KeyError` case. -/
def TiffPage.tagLookup (p : TiffPage) (id : Nat) : Option TagValue :=
  (p.tags.find? (fun kv => kv.1 == id)).map (fun kv => kv.2)

/-- Whether the second character list is an initial segment of the first. -/
def beginsWith : List Char → List Char → Bool
  | _, [] => true
  | [], _ :: _ => false
  | c :: cs, p :: ps => c == p && beginsWith cs ps

/-- Whether the second character list occurs contiguously in the first. -/
def containsSeq (cs sub : List Char) : Bool :=
  match cs with
  | [] => beginsWith [] sub
  | c :: rest => beginsWith (c :: rest) sub || containsSeq rest sub

/-- Python `sub in hay` on two strings: substring containment. -/
def strContains (hay sub : String) : Bool :=
  containsSeq hay.data sub.data

/-- Python `sub in v` on a tag value: substring test on a string value, key
membership test on a mapping value. -/
def TagValue.containsStr (v : TagValue) (sub : String) : Bool :=
  match v with
  | .str s => strContains s sub
  | .dict entries => entries.any (fun kv => kv.1 == sub)

/-- The diagnostic printed by the base predicate when `tifffile` is not
installed. -/
def tifffileMissingMsg : String :=
  "FormatTIFFgeneric is installed but the required library tifffile is not available"

/-- The `try:` body of `FormatTIFFgeneric.understand`: assert one page,
assert one series, then bind `page = tif.pages[0]`. -/
def understandBody (t : Tiff) : Except PyErr Unit :=
  if t.pages.length = 1 then
    if t.series.length = 1 then
      match t.pages.head? with
      | some _ => .ok ()
      | none => .error .indexError
    else .error .assertionError
  else .error .assertionError

/-- `FormatTIFFgeneric.understand`: if `tifffile` is missing, print a
diagnostic and return False; catch `TiffFileError` from opening as False;
then run the assertion body with `except (AssertionError, KeyError)`
returning False and a `finally` close of the handle. -/
def FormatTIFFgeneric.understand (tifffileAvailable : Bool) (f : ImageFile) :
    POutcome :=
  if tifffileAvailable = false then
    { val := .ok false, messages := [tifffileMissingMsg], opened := 0, closed := 0 }
  else
    match openTiff f with
    | .error .tiffFileError =>
        { val := .ok false, messages := [], opened := 0, closed := 0 }
    | .error e =>
        { val := .error e, messages := [], opened := 0, closed := 0 }
    | .ok t =>
        match understandBody t with
        | .ok () => { val := .ok true, messages := [], opened := 1, closed := 1 }
        | .error .assertionError =>
            { val := .ok false, messages := [], opened := 1, closed := 1 }
        | .error .keyError =>
            { val := .ok false, messages := [], opened := 1, closed := 1 }
        | .error e =>
            { val := .error e, messages := [], opened := 1, closed := 1 }

/-- `FormatTIFFgeneric_Merlin.understand`: return False if `QD_MERLIN_TIFF`
is unset; otherwise open the file (unguarded), take the first page inside a
`with` block, and require shape (512, 512). -/
def FormatTIFFgeneric_Merlin.understand (env : Env) (f : ImageFile) :
    POutcome :=
  if env.qdMerlinTiff = none then
    { val := .ok false, messages := [], opened := 0, closed := 0 }
  else
    match openTiff f with
    | .error e => { val := .error e, messages := [], opened := 0, closed := 0 }
    | .ok t =>
        match t.pages.head? with
        | none => { val := .error .indexError, messages := [], opened := 1, closed := 1 }
        | some page =>
            if page.shape ≠ (512, 512) then
              { val := .ok false, messages := [], opened := 1, closed := 1 }
            else
              { val := .ok true, messages := [], opened := 1, closed := 1 }

/-- `FormatTIFFgeneric_ASI.understand`: open the file (unguarded), require
first-page shape (516, 516), then look up tag 270 (a missing tag raises
`KeyError`) and require its value to contain "ImageCameraName: timepix". -/
def FormatTIFFgeneric_ASI.understand (f : ImageFile) : POutcome :=
  match openTiff f with
  | .error e => { val := .error e, messages := [], opened := 0, closed := 0 }
  | .ok t =>
      match t.pages.head? with
      | none => { val := .error .indexError, messages := [], opened := 1, closed := 1 }
      | some page =>
          if page.shape ≠ (516, 516) then
            { val := .ok false, messages := [], opened := 1, closed := 1 }
          else
            match page.tagLookup 270 with
            | none => { val := .error .keyError, messages := [], opened := 1, closed := 1 }
            | some v =>
                if v.containsStr "ImageCameraName: timepix" = false then
                  { val := .ok false, messages := [], opened := 1, closed := 1 }
                else
                  { val := .ok true, messages := [], opened := 1, closed := 1 }

/-- `FormatTIFFgeneric_FEI_Tecnai_G2.understand`: open the file (unguarded),
require first-page shape (1024, 1024), look up tag 33560 (missing tag raises
`KeyError`), index its value with "cameraname" (a string value raises
`TypeError`, a mapping without the key raises `KeyError`) and require the
result to contain "Veleta". -/
def FormatTIFFgeneric_FEI_Tecnai_G2.understand (f : ImageFile) : POutcome :=
  match openTiff f with
  | .error e => { val := .error e, messages := [], opened := 0, closed := 0 }
  | .ok t =>
      match t.pages.head? with
      | none => { val := .error .indexError, messages := [], opened := 1, closed := 1 }
      | some page =>
          if page.shape ≠ (1024, 1024) then
            { val := .ok false, messages := [], opened := 1, closed := 1 }
          else
            match page.tagLookup 33560 with
            | none => { val := .error .keyError, messages := [], opened := 1, closed := 1 }
            | some (.str _) =>
                { val := .error .typeError, messages := [], opened := 1, closed := 1 }
            | some (.dict entries) =>
                match entries.find? (fun kv => kv.1 == "cameraname") with
                | none => { val := .error .keyError, messages := [], opened := 1, closed := 1 }
                | some kv =>
                    if strContains kv.2 "Veleta" = false then
                      { val := .ok false, messages := [], opened := 1, closed := 1 }
                    else
                      { val := .ok true, messages := [], opened := 1, closed := 1 }

/-- `FormatTIFFgeneric_Medipix.understand`: open the file (unguarded) and
require first-page shape (514, 514). -/
def FormatTIFFgeneric_Medipix.understand (f : ImageFile) : POutcome :=
  match openTiff f with
  | .error e => { val := .error e, messages := [], opened := 0, closed := 0 }
  | .ok t =>
      match t.pages.head? with
      | none => { val := .error .indexError, messages := [], opened := 1, closed := 1 }
      | some page =>
          if page.shape ≠ (514, 514) then
            { val := .ok false, messages := [], opened := 1, closed := 1 }
          else
            { val := .ok true, messages := [], opened := 1, closed := 1 }

/-- `FormatTIFF_UED.understand`: open the file (unguarded) and require
first-page shape (1300, 1340). -/
def FormatTIFF_UED.understand (f : ImageFile) : POutcome :=
  match openTiff f with
  | .error e => { val := .error e, messages := [], opened := 0, closed := 0 }
  | .ok t =>
      match t.pages.head? with
      | none => { val := .error .indexError, messages := [], opened := 1, closed := 1 }
      | some page =>
          if page.shape ≠ (1300, 1340) then
            { val := .ok false, messages := [], opened := 1, closed := 1 }
          else
            { val := .ok true, messages := [], opened := 1, closed := 1 }

/-- `FormatTIFF_UED_BNL.understand`: return False if `UED_BNL_TIFF` is
unset; otherwise open the file (unguarded) and require first-page shape
(512, 512). -/
def FormatTIFF_UED_BNL.understand (env : Env) (f : ImageFile) : POutcome :=
  if env.uedBnlTiff = none then
    { val := .ok false, messages := [], opened := 0, closed := 0 }
  else
    match openTiff f with
    | .error e => { val := .error e, messages := [], opened := 0, closed := 0 }
    | .ok t =>
        match t.pages.head? with
        | none => { val := .error .indexError, messages := [], opened := 1, closed := 1 }
        | some page =>
            if page.shape ≠ (512, 512) then
              { val := .ok false, messages := [], opened := 1, closed := 1 }
            else
              { val := .ok true, messages := [], opened := 1, closed := 1 }

/-- Python `str.split(sep)` for a single-character separator: the pieces of
the list between occurrences of the separator, keeping empty pieces. -/
def splitOnChar (c : Char) : List Char → List (List Char)
  | [] => [[]]
  | x :: xs =>
    let rest := splitOnChar c xs
    if x == c then [] :: rest
    else
      match rest with
      | [] => [[x]]
      | r :: rs => (x :: r) :: rs

/-- The maximal run of decimal digits at the end of the list: the text the
group of the regex `.*?([0-9]+)$` captures, empty when the regex fails. -/
def digitsSuffix (cs : List Char) : List Char :=
  (cs.reverse.takeWhile Char.isDigit).reverse

/-- Python `int()` on a string of decimal digits. -/
def parseDigits (cs : List Char) : Nat :=
  cs.foldl (fun n c => n * 10 + (c.toNat - 48)) 0

/-- The string `s` the source applies the regex to: the piece of the file
name after the last underscore, cut at its first dot
(`fname.split("_")[-1].split(".")[0]`). -/
def scanTrailingPiece (fname : String) : List Char :=
  let afterUnderscore := (splitOnChar '_' fname.data).getLastD fname.data
  (splitOnChar '.' afterUnderscore).headD []

/-- The image index `FormatTIFFgeneric._scan` infers from the file name:
the trailing run of decimal digits of `scanTrailingPiece`; when the regex
finds no digits the `AttributeError` handler falls back to index 1. -/
def FormatTIFFgeneric.scanIndex (fname : String) : Int :=
  match digitsSuffix (scanTrailingPiece fname) with
  | [] => 1
  | cs => (parseDigits cs : Int)

/-- The scan object built by `FormatTIFFgeneric._scan` (the arguments passed
to `make_scan` with `deg=True`). -/
structure DummyScan where
  imageRange : Int × Int
  exposureTimes : ℚ
  oscillation : ℚ × ℚ
  epochs : List ℚ
  deriving DecidableEq

/-- `FormatTIFFgeneric._scan` as a function of the file's base name: a
single-image scan at the inferred index, zero exposure, oscillation
`(frame * 0.5, 0.5)` degrees with `frame = index - 1`, one zero epoch. -/
def FormatTIFFgeneric.scanOf (fname : String) : DummyScan :=
  let index := FormatTIFFgeneric.scanIndex fname
  let frame : Int := index - 1
  { imageRange := (index, index)
    exposureTimes := 0
    oscillation := ((frame : ℚ) * 0.5, 0.5)
    epochs := [0] }

/-- Rejoin pieces with dots, undoing `splitOnChar` on the dot. -/
def joinDots : List (List Char) → List Char
  | [] => []
  | [p] => p
  | p :: ps => p ++ '.' :: joinDots ps

/-- Drop the final dot-suffix (the extension) when one is present. -/
def stripExtension (cs : List Char) : List Char :=
  match splitOnChar '.' cs with
  | [] => cs
  | [_] => cs
  | ps => joinDots ps.dropLast

/-- Modelled from the spec: the index extraction as the spec words it for
claim C7 — "the trailing run of decimal digits of the substring after the
final underscore with the extension stripped, defaulting to 1 when no digits
are found".  Stripping the extension removes only the final dot-suffix,
unlike the source, which cuts the substring at its first dot. -/
def scanIndexSpecReading (fname : String) : Int :=
  let afterUnderscore := (splitOnChar '_' fname.data).getLastD fname.data
  let s := stripExtension afterUnderscore
  match digitsSuffix s with
  | [] => 1
  | cs => (parseDigits cs : Int)

/-- The detector stub each profile's `_detector` passes to
`detector_factory.simple`. -/
structure DetectorStub where
  sensorType : String
  distance : ℚ
  beamCentre : ℚ × ℚ
  fastDirection : String
  slowDirection : String
  pixelSize : ℚ × ℚ
  imageSize : Nat × Nat
  dynRange : Nat
  trustedRange : Int × Int
  deriving DecidableEq

/-- `FormatTIFFgeneric_Merlin._detector`. -/
def FormatTIFFgeneric_Merlin.detector : DetectorStub :=
  let pixel_size : ℚ × ℚ := (0.055, 0.055)
  let image_size : Nat × Nat := (512, 512)
  let dyn_range : Nat := 12
  let trusted_range : Int × Int := (-1, 2 ^ dyn_range - 1)
  let beam_centre : ℚ × ℚ :=
    ((pixel_size.1 * (image_size.1 : ℚ)) / 2, (pixel_size.2 * (image_size.2 : ℚ)) / 2)
  { sensorType := "PAD", distance := 2440, beamCentre := beam_centre,
    fastDirection := "+x", slowDirection := "-y", pixelSize := pixel_size,
    imageSize := image_size, dynRange := dyn_range, trustedRange := trusted_range }

/-- `FormatTIFFgeneric_ASI._detector`. -/
def FormatTIFFgeneric_ASI.detector : DetectorStub :=
  let pixel_size : ℚ × ℚ := (0.055, 0.055)
  let image_size : Nat × Nat := (516, 516)
  let dyn_range : Nat := 20
  let trusted_range : Int × Int := (-1, 2 ^ dyn_range - 1)
  let beam_centre : ℚ × ℚ :=
    ((pixel_size.1 * (image_size.1 : ℚ)) / 2, (pixel_size.2 * (image_size.2 : ℚ)) / 2)
  { sensorType := "PAD", distance := 2440, beamCentre := beam_centre,
    fastDirection := "+x", slowDirection := "-y", pixelSize := pixel_size,
    imageSize := image_size, dynRange := dyn_range, trustedRange := trusted_range }

/-- `FormatTIFFgeneric_FEI_Tecnai_G2._detector`. -/
def FormatTIFFgeneric_FEI_Tecnai_G2.detector : DetectorStub :=
  let pixel_size : ℚ × ℚ := (0.026, 0.026)
  let image_size : Nat × Nat := (1024, 1024)
  let dyn_range : Nat := 14
  let trusted_range : Int × Int := (-1, 2 ^ dyn_range - 1)
  let beam_centre : ℚ × ℚ :=
    ((pixel_size.1 * (image_size.1 : ℚ)) / 2, (pixel_size.2 * (image_size.2 : ℚ)) / 2)
  { sensorType := "PAD", distance := 2440, beamCentre := beam_centre,
    fastDirection := "+x", slowDirection := "-y", pixelSize := pixel_size,
    imageSize := image_size, dynRange := dyn_range, trustedRange := trusted_range }

/-- `FormatTIFFgeneric_Medipix._detector`. -/
def FormatTIFFgeneric_Medipix.detector : DetectorStub :=
  let pixel_size : ℚ × ℚ := (0.055, 0.055)
  let image_size : Nat × Nat := (514, 514)
  let dyn_range : Nat := 16
  let trusted_range : Int × Int := (-1, 2 ^ dyn_range - 1)
  let beam_centre : ℚ × ℚ :=
    ((pixel_size.1 * (image_size.1 : ℚ)) / 2, (pixel_size.2 * (image_size.2 : ℚ)) / 2)
  { sensorType := "PAD", distance := 2440, beamCentre := beam_centre,
    fastDirection := "+x", slowDirection := "-y", pixelSize := pixel_size,
    imageSize := image_size, dynRange := dyn_range, trustedRange := trusted_range }

/-- `FormatTIFF_UED._detector`. -/
def FormatTIFF_UED.detector : DetectorStub :=
  let pixel_size : ℚ × ℚ := (0.060, 0.060)
  let image_size : Nat × Nat := (1300, 1340)
  let dyn_range : Nat := 20
  let trusted_range : Int × Int := (-1, 2 ^ dyn_range - 1)
  let beam_centre : ℚ × ℚ :=
    ((pixel_size.1 * (image_size.1 : ℚ)) / 2, (pixel_size.2 * (image_size.2 : ℚ)) / 2)
  { sensorType := "PAD", distance := 2440, beamCentre := beam_centre,
    fastDirection := "+x", slowDirection := "-y", pixelSize := pixel_size,
    imageSize := image_size, dynRange := dyn_range, trustedRange := trusted_range }

/-- `FormatTIFF_UED_BNL._detector`. -/
def FormatTIFF_UED_BNL.detector : DetectorStub :=
  let pixel_size : ℚ × ℚ := (0.016, 0.016)
  let image_size : Nat × Nat := (512, 512)
  let dyn_range : Nat := 20
  let trusted_range : Int × Int := (-1, 2 ^ dyn_range - 1)
  let beam_centre : ℚ × ℚ :=
    ((pixel_size.1 * (image_size.1 : ℚ)) / 2, (pixel_size.2 * (image_size.2 : ℚ)) / 2)
  { sensorType := "CCD", distance := 3480, beamCentre := beam_centre,
    fastDirection := "+x", slowDirection := "-y", pixelSize := pixel_size,
    imageSize := image_size, dynRange := dyn_range, trustedRange := trusted_range }

/-- The six profile detector stubs. -/
def allDetectors : List DetectorStub :=
  [FormatTIFFgeneric_Merlin.detector, FormatTIFFgeneric_ASI.detector,
   FormatTIFFgeneric_FEI_Tecnai_G2.detector, FormatTIFFgeneric_Medipix.detector,
   FormatTIFF_UED.detector, FormatTIFF_UED_BNL.detector]

/-! Concrete fixtures used by witnesses and counterexamples. -/

/-- A bare 512x512 page. -/
def page512 : TiffPage := { shape := (512, 512), tags := [] }

/-- A 516x516 page whose tag 270 carries the ASI camera label. -/
def page516asi : TiffPage :=
  { shape := (516, 516),
    tags := [(270, .str "ImageCameraName: timepix ImageCameraDimensions: 516, 516")] }

/-- A 516x516 page whose tag 270 carries a different camera label. -/
def page516other : TiffPage :=
  { shape := (516, 516), tags := [(270, .str "ImageCameraName: other")] }

/-- A single-page, single-series 512x512 container. -/
def tiff512 : Tiff := { pages := [page512], series := [()] }

/-- A single-page, single-series container matching the ASI profile. -/
def tiffASI : Tiff := { pages := [page516asi], series := [()] }

/-- A single-page, single-series container failing the ASI tag check. -/
def tiffASIother : Tiff := { pages := [page516other], series := [()] }

/-- A two-page, single-series container whose first page is 512x512. -/
def twoPageTiff : Tiff := { pages := [page512, page512], series := [()] }

/-- Environment with both gating variables unset. -/
def envUnset : Env := { qdMerlinTiff := none, uedBnlTiff := none }

/-- Environment with `QD_MERLIN_TIFF` set. -/
def envMerlinSet : Env := { qdMerlinTiff := some "1", uedBnlTiff := none }

/-- Environment with `UED_BNL_TIFF` set. -/
def envBnlSet : Env := { qdMerlinTiff := none, uedBnlTiff := some "1" }

/-! Helper lemmas shared by the claim theorems. -/

/-- `isOk` evaluates to `true` on a returned boolean. -/
theorem isOk_ok (b : Bool) : (Except.ok b : Except PyErr Bool).isOk = true := rfl

/-- Characterization of the value returned by the base predicate on a
parseable container: it is always a boolean, true exactly when `tifffile` is
available and the container has one page and one series. -/
theorem base_val_eq (avail : Bool) (t : Tiff) :
    (FormatTIFFgeneric.understand avail (.tiff t)).val =
      .ok (avail && (t.pages.length == 1) && (t.series.length == 1)) := by
  cases avail with
  | false => rfl
  | true =>
    unfold FormatTIFFgeneric.understand openTiff understandBody
    by_cases hp : t.pages.length = 1
    · by_cases hs : t.series.length = 1
      · obtain ⟨p, hpl⟩ := List.length_eq_one.mp hp
        simp [hp, hs, hpl]
      · simp [hp, hs]
    · simp [hp]

/-- C1: the base detection predicate `FormatTIFFgeneric.understand` returns
False on any container whose page count or series count differs from 1, and
returns True only when both counts equal 1. -/
theorem base_requires_single_page_and_series (avail : Bool) (t : Tiff) :
    ((t.pages.length ≠ 1 ∨ t.series.length ≠ 1) →
      (FormatTIFFgeneric.understand avail (.tiff t)).val = .ok false)
    ∧ ((FormatTIFFgeneric.understand avail (.tiff t)).val = .ok true →
      t.pages.length = 1 ∧ t.series.length = 1) := by
  rw [base_val_eq]
  constructor
  · rintro (h | h) <;> simp [h]
  · intro h
    simp at h
    exact ⟨h.1.2, h.2⟩

/-- Witness for C1 at a two-page container: the base predicate rejects it. -/
theorem base_requires_single_page_and_series_witness :
    (FormatTIFFgeneric.understand true (.tiff twoPageTiff)).val = .ok false :=
  (base_requires_single_page_and_series true twoPageTiff).1 (Or.inl (by decide))

/-- C2: with the `tifffile` dependency unavailable the base predicate prints
the diagnostic and returns False, and on a file whose opening raises
`TiffFileError` it returns False; both outcomes are returned booleans, not
escaped exceptions. -/
theorem base_handles_missing_codec_and_parse_error :
    (∀ f : ImageFile,
      (FormatTIFFgeneric.understand false f).val = .ok false
      ∧ (FormatTIFFgeneric.understand false f).messages = [tifffileMissingMsg])
    ∧ (∀ avail : Bool, (FormatTIFFgeneric.understand avail .unreadable).val = .ok false) := by
  constructor
  · intro f
    exact ⟨rfl, rfl⟩
  · intro avail
    cases avail <;> rfl

/-- C8: the base predicate closes every container handle it opens before
returning, on every exit path. -/
theorem base_closes_handle (avail : Bool) (f : ImageFile) :
    (FormatTIFFgeneric.understand avail f).opened =
      (FormatTIFFgeneric.understand avail f).closed := by
  cases f with
  | unreadable => cases avail <;> rfl
  | tiff t =>
    cases avail with
    | false => rfl
    | true =>
      unfold FormatTIFFgeneric.understand openTiff understandBody
      by_cases hp : t.pages.length = 1
      · by_cases hs : t.series.length = 1
        · obtain ⟨p, hpl⟩ := List.length_eq_one.mp hp
          simp [hp, hs, hpl]
        · simp [hp, hs]
      · simp [hp]

/-- C5: the Merlin predicate returns False whenever `QD_MERLIN_TIFF` is
unset, regardless of the file; with the variable set it returns True exactly
on files that parse to a container whose first page has shape 512x512. -/
theorem merlin_env_gate :
    (∀ (e : Env) (f : ImageFile), e.qdMerlinTiff = none →
      (FormatTIFFgeneric_Merlin.understand e f).val = .ok false)
    ∧ (∀ (e : Env) (f : ImageFile), e.qdMerlinTiff ≠ none →
      ((FormatTIFFgeneric_Merlin.understand e f).val = .ok true ↔
        ∃ t p, f = .tiff t ∧ t.pages.head? = some p ∧ p.shape = (512, 512))) := by
  constructor
  · intro e f h
    simp [FormatTIFFgeneric_Merlin.understand, h]
  · intro e f h
    cases f with
    | unreadable => simp [FormatTIFFgeneric_Merlin.understand, h, openTiff]
    | tiff t =>
      cases hh : t.pages.head? with
      | none => simp [FormatTIFFgeneric_Merlin.understand, h, openTiff, hh]
      | some p =>
        by_cases hs : p.shape = (512, 512)
        · simp [FormatTIFFgeneric_Merlin.understand, h, openTiff, hh, hs]
        · simp [FormatTIFFgeneric_Merlin.understand, h, openTiff, hh, hs]

/-- Witness for C5: with the gate unset a matching file is rejected; with
the gate set the same file is accepted. -/
theorem merlin_env_gate_witness :
    (FormatTIFFgeneric_Merlin.understand envUnset (.tiff tiff512)).val = .ok false
    ∧ (FormatTIFFgeneric_Merlin.understand envMerlinSet (.tiff tiff512)).val = .ok true := by
  constructor
  · exact merlin_env_gate.1 envUnset (.tiff tiff512) rfl
  · exact (merlin_env_gate.2 envMerlinSet (.tiff tiff512) (by decide)).mpr
      ⟨tiff512, page512, rfl, rfl, rfl⟩

/-- C6: the ASI predicate returns False unless the first page has shape
516x516, returns False on a 516x516 page whose tag 270 value lacks the
substring "ImageCameraName: timepix", and returns True exactly when the
shape matches and the (present) tag value contains the substring. -/
theorem asi_shape_and_tag (t : Tiff) (p : TiffPage) (hp : t.pages.head? = some p) :
    (p.shape ≠ (516, 516) → (FormatTIFFgeneric_ASI.understand (.tiff t)).val = .ok false)
    ∧ (∀ v, p.tagLookup 270 = some v →
        v.containsStr "ImageCameraName: timepix" = false →
        (FormatTIFFgeneric_ASI.understand (.tiff t)).val = .ok false)
    ∧ ((FormatTIFFgeneric_ASI.understand (.tiff t)).val = .ok true ↔
        p.shape = (516, 516) ∧ ∃ v, p.tagLookup 270 = some v ∧
          v.containsStr "ImageCameraName: timepix" = true) := by
  refine ⟨?_, ?_, ?_⟩
  · intro hs
    simp [FormatTIFFgeneric_ASI.understand, openTiff, hp, hs]
  · intro v hv hc
    by_cases hs : p.shape = (516, 516)
    · simp [FormatTIFFgeneric_ASI.understand, openTiff, hp, hs, hv, hc]
    · simp [FormatTIFFgeneric_ASI.understand, openTiff, hp, hs]
  · by_cases hs : p.shape = (516, 516)
    · cases hv : p.tagLookup 270 with
      | none => simp [FormatTIFFgeneric_ASI.understand, openTiff, hp, hs, hv]
      | some v =>
        by_cases hc : v.containsStr "ImageCameraName: timepix" = true
        · simp [FormatTIFFgeneric_ASI.understand, openTiff, hp, hs, hv, hc]
        · simp only [Bool.not_eq_true] at hc
          simp [FormatTIFFgeneric_ASI.understand, openTiff, hp, hs, hv, hc]
    · simp [FormatTIFFgeneric_ASI.understand, openTiff, hp, hs]

/-- Witness for C6: a 512x512 page is rejected, a 516x516 page with the
wrong camera label is rejected, a 516x516 page with the timepix label is
accepted. -/
theorem asi_shape_and_tag_witness :
    (FormatTIFFgeneric_ASI.understand (.tiff tiff512)).val = .ok false
    ∧ (FormatTIFFgeneric_ASI.understand (.tiff tiffASIother)).val = .ok false
    ∧ (FormatTIFFgeneric_ASI.understand (.tiff tiffASI)).val = .ok true := by
  refine ⟨?_, ?_, ?_⟩
  · exact (asi_shape_and_tag tiff512 page512 rfl).1 (by decide)
  · exact (asi_shape_and_tag tiffASIother page516other rfl).2.1
      (.str "ImageCameraName: other") (by decide) (by decide)
  · exact (asi_shape_and_tag tiffASI page516asi rfl).2.2.mpr
      ⟨by decide,
       .str "ImageCameraName: timepix ImageCameraDimensions: 516, 516",
       by decide, by decide⟩

/-- C9: every profile's trusted range is `(-1, 2 ^ dynamic_range - 1)`; the
Merlin profile (dynamic range 12) gets `(-1, 4095)` and the Medipix profile
(dynamic range 16) gets `(-1, 65535)`. -/
theorem trusted_range_from_dynamic_range :
    (allDetectors.all fun d => d.trustedRange == (-1, 2 ^ d.dynRange - 1)) = true
    ∧ FormatTIFFgeneric_Merlin.detector.dynRange = 12
    ∧ FormatTIFFgeneric_Merlin.detector.trustedRange = (-1, 4095)
    ∧ FormatTIFFgeneric_Medipix.detector.dynRange = 16
    ∧ FormatTIFFgeneric_Medipix.detector.trustedRange = (-1, 65535) := by
  refine ⟨by decide, by decide, by decide, by decide, by decide⟩

/-- C10: a trailing digit run parsing to 0 is used as the index (the default
to 1 needs the absence of digits): "foo_0.tif" gives index 0, frame -1, a
scan over [0, 0] and oscillation start -0.5 degrees. -/
theorem scan_zero_index_not_defaulted :
    FormatTIFFgeneric.scanIndex "foo_0.tif" = 0
    ∧ FormatTIFFgeneric.scanOf "foo_0.tif" =
      { imageRange := (0, 0), exposureTimes := 0,
        oscillation := (-0.5, 0.5), epochs := [0] } := by
  constructor
  · decide
  · have h : FormatTIFFgeneric.scanIndex "foo_0.tif" = 0 := by decide
    norm_num [FormatTIFFgeneric.scanOf, h]

/-- Counterexample to C3 as stated: with `QD_MERLIN_TIFF` set, the Merlin
predicate on a file the codec cannot parse lets the container parse error
escape instead of returning a boolean — an exception that is neither in the
ASI nor in the Tecnai predicate, and is not a key-lookup error. -/
theorem merlin_propagates_parse_error :
    (FormatTIFFgeneric_Merlin.understand envMerlinSet .unreadable).val
      = .error .tiffFileError := by
  decide

/-- C3 (amended): the base predicate is total; every specialization reopens
the file unguarded and therefore propagates the container parse error once
its environment gate passes; on any parsed container with a first page the
Merlin, Medipix, UED and UED-BNL predicates return a boolean, while ASI and
Tecnai return a boolean or let a key-lookup error escape for a missing tag
or nested key (Tecnai also a type error when tag 33560's value is not a
mapping). -/
theorem predicates_totality :
    (∀ (avail : Bool) (f : ImageFile), (FormatTIFFgeneric.understand avail f).val.isOk = true)
    ∧ ((FormatTIFFgeneric_ASI.understand .unreadable).val = .error .tiffFileError)
    ∧ ((FormatTIFFgeneric_FEI_Tecnai_G2.understand .unreadable).val = .error .tiffFileError)
    ∧ ((FormatTIFFgeneric_Medipix.understand .unreadable).val = .error .tiffFileError)
    ∧ ((FormatTIFF_UED.understand .unreadable).val = .error .tiffFileError)
    ∧ (∀ e : Env, e.qdMerlinTiff ≠ none →
        (FormatTIFFgeneric_Merlin.understand e .unreadable).val = .error .tiffFileError)
    ∧ (∀ e : Env, e.uedBnlTiff ≠ none →
        (FormatTIFF_UED_BNL.understand e .unreadable).val = .error .tiffFileError)
    ∧ (∀ (e : Env) (t : Tiff) (p : TiffPage), t.pages.head? = some p →
        ((FormatTIFFgeneric_Merlin.understand e (.tiff t)).val.isOk = true)
        ∧ ((FormatTIFFgeneric_Medipix.understand (.tiff t)).val.isOk = true)
        ∧ ((FormatTIFF_UED.understand (.tiff t)).val.isOk = true)
        ∧ ((FormatTIFF_UED_BNL.understand e (.tiff t)).val.isOk = true)
        ∧ ((FormatTIFFgeneric_ASI.understand (.tiff t)).val.isOk = true
            ∨ (FormatTIFFgeneric_ASI.understand (.tiff t)).val = .error .keyError)
        ∧ ((FormatTIFFgeneric_FEI_Tecnai_G2.understand (.tiff t)).val.isOk = true
            ∨ (FormatTIFFgeneric_FEI_Tecnai_G2.understand (.tiff t)).val = .error .keyError
            ∨ (FormatTIFFgeneric_FEI_Tecnai_G2.understand (.tiff t)).val = .error .typeError)) := by
  refine ⟨?_, rfl, rfl, rfl, rfl, ?_, ?_, ?_⟩
  · intro avail f
    cases f with
    | unreadable => cases avail <;> rfl
    | tiff t => rw [base_val_eq]; rfl
  · intro e h
    simp [FormatTIFFgeneric_Merlin.understand, h, openTiff]
  · intro e h
    simp [FormatTIFF_UED_BNL.understand, h, openTiff]
  · intro e t p hp
    refine ⟨?_, ?_, ?_, ?_, ?_, ?_⟩
    · by_cases he : e.qdMerlinTiff = none
      · simp [FormatTIFFgeneric_Merlin.understand, he, isOk_ok]
      · by_cases hs : p.shape = (512, 512) <;>
          simp [FormatTIFFgeneric_Merlin.understand, he, openTiff, hp, hs, isOk_ok]
    · by_cases hs : p.shape = (514, 514) <;>
        simp [FormatTIFFgeneric_Medipix.understand, openTiff, hp, hs, isOk_ok]
    · by_cases hs : p.shape = (1300, 1340) <;>
        simp [FormatTIFF_UED.understand, openTiff, hp, hs, isOk_ok]
    · by_cases he : e.uedBnlTiff = none
      · simp [FormatTIFF_UED_BNL.understand, he, isOk_ok]
      · by_cases hs : p.shape = (512, 512) <;>
          simp [FormatTIFF_UED_BNL.understand, he, openTiff, hp, hs, isOk_ok]
    · by_cases hs : p.shape = (516, 516)
      · cases hv : p.tagLookup 270 with
        | none => right; simp [FormatTIFFgeneric_ASI.understand, openTiff, hp, hs, hv]
        | some v =>
          left
          by_cases hc : v.containsStr "ImageCameraName: timepix" = true
          · simp [FormatTIFFgeneric_ASI.understand, openTiff, hp, hs, hv, hc, isOk_ok]
          · simp only [Bool.not_eq_true] at hc
            simp [FormatTIFFgeneric_ASI.understand, openTiff, hp, hs, hv, hc, isOk_ok]
      · left; simp [FormatTIFFgeneric_ASI.understand, openTiff, hp, hs, isOk_ok]
    · by_cases hs : p.shape = (1024, 1024)
      · cases hv : p.tagLookup 33560 with
        | none =>
          right; left
          simp [FormatTIFFgeneric_FEI_Tecnai_G2.understand, openTiff, hp, hs, hv]
        | some v =>
          cases v with
          | str s =>
            right; right
            simp [FormatTIFFgeneric_FEI_Tecnai_G2.understand, openTiff, hp, hs, hv]
          | dict entries =>
            cases hk : entries.find? (fun kv => kv.1 == "cameraname") with
            | none =>
              right; left
              simp [FormatTIFFgeneric_FEI_Tecnai_G2.understand, openTiff, hp, hs, hv, hk]
            | some kv =>
              left
              by_cases hc : strContains kv.2 "Veleta" = true
              · simp [FormatTIFFgeneric_FEI_Tecnai_G2.understand, openTiff, hp, hs, hv,
                  hk, hc, isOk_ok]
              · simp only [Bool.not_eq_true] at hc
                simp [FormatTIFFgeneric_FEI_Tecnai_G2.understand, openTiff, hp, hs, hv,
                  hk, hc, isOk_ok]
      · left
        simp [FormatTIFFgeneric_FEI_Tecnai_G2.understand, openTiff, hp, hs, isOk_ok]

/-- Witness for the amended C3, applying the theorem with each hypothesis
discharged at concrete inputs. -/
theorem predicates_totality_witness :
    (FormatTIFFgeneric_Merlin.understand envMerlinSet .unreadable).val = .error .tiffFileError
    ∧ (FormatTIFF_UED_BNL.understand envBnlSet .unreadable).val = .error .tiffFileError
    ∧ (FormatTIFFgeneric_Merlin.understand envMerlinSet (.tiff tiff512)).val.isOk = true := by
  refine ⟨?_, ?_, ?_⟩
  · exact predicates_totality.2.2.2.2.2.1 envMerlinSet (by decide)
  · exact predicates_totality.2.2.2.2.2.2.1 envBnlSet (by decide)
  · exact (predicates_totality.2.2.2.2.2.2.2 envMerlinSet tiff512 page512 rfl).1

/-- Counterexample to C4 as stated: with `QD_MERLIN_TIFF` set the Merlin
predicate accepts a two-page container whose first page is 512x512, while
the base predicate rejects that same container. -/
theorem merlin_accepts_what_base_rejects :
    (FormatTIFFgeneric_Merlin.understand envMerlinSet (.tiff twoPageTiff)).val = .ok true
    ∧ (FormatTIFFgeneric.understand true (.tiff twoPageTiff)).val = .ok false
    ∧ twoPageTiff.pages.length = 2 := by
  refine ⟨by decide, by decide, by decide⟩

/-- C4 (amended): each of the six specialized predicates evaluates only its
own profile-specific checks as a short-circuiting conjunction (environment
gate, then first-page shape, then tag contents): on a parsed container its
value is a function of the gate, the first page's shape and the first page's
tags alone.  None re-evaluates the base predicate's page and series count
requirements, whose composition is left to the host framework's format
dispatch, and the gated predicates return before opening the file when the
gate is unset. -/
theorem specializations_check_only_own_profile (e : Env) (t : Tiff) (p : TiffPage)
    (hp : t.pages.head? = some p) :
    ((FormatTIFFgeneric_Merlin.understand e (.tiff t)).val =
      .ok (e.qdMerlinTiff.isSome && decide (p.shape = (512, 512))))
    ∧ ((FormatTIFFgeneric_Medipix.understand (.tiff t)).val =
      .ok (decide (p.shape = (514, 514))))
    ∧ ((FormatTIFF_UED.understand (.tiff t)).val =
      .ok (decide (p.shape = (1300, 1340))))
    ∧ ((FormatTIFF_UED_BNL.understand e (.tiff t)).val =
      .ok (e.uedBnlTiff.isSome && decide (p.shape = (512, 512))))
    ∧ ((FormatTIFFgeneric_ASI.understand (.tiff t)).val =
      if p.shape ≠ (516, 516) then .ok false
      else
        match p.tagLookup 270 with
        | none => .error .keyError
        | some v => .ok (v.containsStr "ImageCameraName: timepix"))
    ∧ ((FormatTIFFgeneric_FEI_Tecnai_G2.understand (.tiff t)).val =
      if p.shape ≠ (1024, 1024) then .ok false
      else
        match p.tagLookup 33560 with
        | none => .error .keyError
        | some (.str _) => .error .typeError
        | some (.dict entries) =>
          match entries.find? (fun kv => kv.1 == "cameraname") with
          | none => .error .keyError
          | some kv => .ok (strContains kv.2 "Veleta"))
    ∧ (∀ f : ImageFile, e.qdMerlinTiff = none →
        (FormatTIFFgeneric_Merlin.understand e f).opened = 0)
    ∧ (∀ f : ImageFile, e.uedBnlTiff = none →
        (FormatTIFF_UED_BNL.understand e f).opened = 0) := by
  refine ⟨?_, ?_, ?_, ?_, ?_, ?_, ?_, ?_⟩
  · by_cases he : e.qdMerlinTiff = none
    · simp [FormatTIFFgeneric_Merlin.understand, he]
    · by_cases hs : p.shape = (512, 512) <;>
        simp [FormatTIFFgeneric_Merlin.understand, he, openTiff, hp, hs,
          Option.isSome_iff_ne_none]
  · by_cases hs : p.shape = (514, 514) <;>
      simp [FormatTIFFgeneric_Medipix.understand, openTiff, hp, hs]
  · by_cases hs : p.shape = (1300, 1340) <;>
      simp [FormatTIFF_UED.understand, openTiff, hp, hs]
  · by_cases he : e.uedBnlTiff = none
    · simp [FormatTIFF_UED_BNL.understand, he]
    · by_cases hs : p.shape = (512, 512) <;>
        simp [FormatTIFF_UED_BNL.understand, he, openTiff, hp, hs,
          Option.isSome_iff_ne_none]
  · by_cases hs : p.shape = (516, 516)
    · cases hv : p.tagLookup 270 with
      | none => simp [FormatTIFFgeneric_ASI.understand, openTiff, hp, hs, hv]
      | some v =>
        cases hc : v.containsStr "ImageCameraName: timepix" <;>
          simp [FormatTIFFgeneric_ASI.understand, openTiff, hp, hs, hv, hc]
    · simp [FormatTIFFgeneric_ASI.understand, openTiff, hp, hs]
  · by_cases hs : p.shape = (1024, 1024)
    · cases hv : p.tagLookup 33560 with
      | none => simp [FormatTIFFgeneric_FEI_Tecnai_G2.understand, openTiff, hp, hs, hv]
      | some v =>
        cases v with
        | str s => simp [FormatTIFFgeneric_FEI_Tecnai_G2.understand, openTiff, hp, hs, hv]
        | dict entries =>
          cases hk : entries.find? (fun kv => kv.1 == "cameraname") with
          | none =>
            simp [FormatTIFFgeneric_FEI_Tecnai_G2.understand, openTiff, hp, hs, hv, hk]
          | some kv =>
            cases hc : strContains kv.2 "Veleta" <;>
              simp [FormatTIFFgeneric_FEI_Tecnai_G2.understand, openTiff, hp, hs, hv, hk, hc]
    · simp [FormatTIFFgeneric_FEI_Tecnai_G2.understand, openTiff, hp, hs]
  · intro f he
    simp [FormatTIFFgeneric_Merlin.understand, he]
  · intro f he
    simp [FormatTIFF_UED_BNL.understand, he]

/-- Witness for the amended C4: the characterizations applied to concrete
single-page containers, and the Merlin gate short-circuit applied to an
unreadable file. -/
theorem specializations_check_only_own_profile_witness :
    (FormatTIFFgeneric_Merlin.understand envMerlinSet (.tiff tiff512)).val = .ok true
    ∧ (FormatTIFFgeneric_Medipix.understand (.tiff tiff512)).val = .ok false
    ∧ (FormatTIFF_UED.understand (.tiff tiff512)).val = .ok false
    ∧ (FormatTIFF_UED_BNL.understand envBnlSet (.tiff tiff512)).val = .ok true
    ∧ (FormatTIFFgeneric_ASI.understand (.tiff tiffASI)).val = .ok true
    ∧ (FormatTIFFgeneric_FEI_Tecnai_G2.understand (.tiff tiffASI)).val = .ok false
    ∧ (FormatTIFFgeneric_Merlin.understand envUnset .unreadable).opened = 0 := by
  have h := specializations_check_only_own_profile envMerlinSet tiff512 page512 rfl
  have hb := specializations_check_only_own_profile envBnlSet tiff512 page512 rfl
  have ha := specializations_check_only_own_profile envMerlinSet tiffASI page516asi rfl
  have hu := specializations_check_only_own_profile envUnset tiff512 page512 rfl
  refine ⟨?_, ?_, ?_, ?_, ?_, ?_, ?_⟩
  · rw [h.1]; decide
  · rw [h.2.1]; decide
  · rw [h.2.2.1]; decide
  · rw [hb.2.2.2.1]; decide
  · rw [ha.2.2.2.2.1]; decide
  · rw [ha.2.2.2.2.2.1]; decide
  · exact hu.2.2.2.2.2.2.1 .unreadable rfl

/-- Counterexample to C7 as stated: on "foo_1.2.tif" the index under the
spec's words (trailing digits after stripping the extension ".tif",
i.e. of "1.2") is 2, but the source cuts the substring at its first dot
(leaving "1") and infers index 1. -/
theorem scan_extension_reading_mismatch :
    scanIndexSpecReading "foo_1.2.tif" = 2
    ∧ FormatTIFFgeneric.scanIndex "foo_1.2.tif" = 1
    ∧ scanIndexSpecReading "foo_1.2.tif" ≠ FormatTIFFgeneric.scanIndex "foo_1.2.tif" := by
  refine ⟨by decide, by decide, by decide⟩

/-- C7 (amended): scan inference is a pure function of the filename; the
index is the trailing run of decimal digits of the portion before the first
dot of the substring after the final underscore, defaulting to 1 when that
portion has no trailing digits; the frame equals index minus 1, the scan
spans [index, index] with oscillation (0.5 x frame, 0.5) degrees, zero
exposure and a single zero epoch; "foo_023.tif" gives index 23, frame 22,
oscillation start 11.0 and "foo_bar.tif" gives index 1, frame 0, start 0. -/
theorem scan_inference_from_filename :
    (∀ fname : String, FormatTIFFgeneric.scanOf fname =
      { imageRange := (FormatTIFFgeneric.scanIndex fname, FormatTIFFgeneric.scanIndex fname),
        exposureTimes := 0,
        oscillation := (((FormatTIFFgeneric.scanIndex fname - 1 : Int) : ℚ) * 0.5, 0.5),
        epochs := [0] })
    ∧ (∀ fname : String, digitsSuffix (scanTrailingPiece fname) = [] →
        FormatTIFFgeneric.scanIndex fname = 1)
    ∧ FormatTIFFgeneric.scanIndex "foo_023.tif" = 23
    ∧ FormatTIFFgeneric.scanOf "foo_023.tif" =
      { imageRange := (23, 23), exposureTimes := 0, oscillation := (11, 0.5), epochs := [0] }
    ∧ FormatTIFFgeneric.scanIndex "foo_bar.tif" = 1
    ∧ FormatTIFFgeneric.scanOf "foo_bar.tif" =
      { imageRange := (1, 1), exposureTimes := 0, oscillation := (0, 0.5), epochs := [0] } := by
  refine ⟨?_, ?_, by decide, ?_, by decide, ?_⟩
  · intro fname
    rfl
  · intro fname h
    simp [FormatTIFFgeneric.scanIndex, h]
  · have h : FormatTIFFgeneric.scanIndex "foo_023.tif" = 23 := by decide
    norm_num [FormatTIFFgeneric.scanOf, h]
  · have h : FormatTIFFgeneric.scanIndex "foo_bar.tif" = 1 := by decide
    norm_num [FormatTIFFgeneric.scanOf, h]

/-- Witness for the amended C7: "foo_bar.tif" has no trailing digits before
its first dot, so the index defaults to 1. -/
theorem scan_inference_from_filename_witness :
    FormatTIFFgeneric.scanIndex "foo_bar.tif" = 1 :=
  scan_inference_from_filename.2.1 "foo_bar.tif" (by decide)

end DxtbxED
